import Mathlib

/-!
Verification of the martingale trading bot (Backpack exchange) against its
natural-language specification.  The definitions below are a shallow
embedding of the Python source:

  * `src/core/strategy.py`        — `MartingaleStrategy`
  * `src/main/martingale_runner.py` — `MartingaleRunner`
  * `src/core/order_monitor.py`   — `OrderMonitor`
  * `src/core/order_executor.py`  — `OrderExecutor`
  * `src/api/client.py`           — `BackpackAPIClient`

Python floats are modelled as exact rationals (`ℚ`); the properties under
verification are algebraic identities or concrete evaluations for which the
tie-breaking of binary floating point is immaterial.  Python dicts that keep
insertion order are modelled as association lists.  Every exchange-facing
client method in `src/api/client.py` wraps its body in a blanket
`try/except` and returns `None` on any failure, so these calls are modelled
as total functions returning `Option` values (they never raise to the
caller); outcomes of external calls are passed in as explicit parameters.
-/

/-- Strategy/runner settings (src/config/settings.py, class `Settings`).
Only the fields consumed by the embedded code are modelled.
`ENTRY_GAP_AFTER_TP` is optional in the source (`hasattr` check);
`none` models the attribute being absent. -/
structure StrategySettings where
  ENTRY_SIZE_USDT : ℚ
  MAX_LAYERS : ℕ
  MULTIPLIER : ℚ
  TAKE_PROFIT_PCT : ℚ
  PRICE_STEP_DOWN : ℚ
  FIRST_ORDER_AMOUNT : ℚ
  ENTRY_GAP_AFTER_TP : Option ℚ
deriving DecidableEq

/-- `MartingaleStrategy.allocate_funds` (src/core/strategy.py:98-131).
Python `range(1, MAX_LAYERS)` is `List.range' 1 (MAX_LAYERS - 1)`.
The geometric weights are summed exactly as the source does; the source
divides by `total_weight` without a zero check, which cannot be zero for
the positive multipliers the claims quantify over. -/
def MartingaleStrategy.allocate_funds (s : StrategySettings) : List ℚ :=
  let total := s.ENTRY_SIZE_USDT
  if 0 < s.FIRST_ORDER_AMOUNT then
    let first_order_amount := s.FIRST_ORDER_AMOUNT
    let remaining_amount := total - first_order_amount
    let remaining_layers := s.MAX_LAYERS - 1
    if 0 < remaining_layers then
      let total_weight :=
        ((List.range remaining_layers).map (fun i => s.MULTIPLIER ^ i)).sum
      first_order_amount ::
        (List.range' 1 (s.MAX_LAYERS - 1)).map
          (fun i => remaining_amount * s.MULTIPLIER ^ (i - 1) / total_weight)
    else
      [first_order_amount]
  else
    let total_weight :=
      ((List.range s.MAX_LAYERS).map (fun i => s.MULTIPLIER ^ i)).sum
    (List.range s.MAX_LAYERS).map
      (fun i => total * s.MULTIPLIER ^ i / total_weight)

/-- `MartingaleStrategy.calculate_pnl` (src/core/strategy.py:133-137).
`avg_entry_price` is `Option ℚ`: Python `not avg_entry_price` is true for
`None` and for `0`, and `avg_entry_price <= 0` covers negatives; together
they are `none` or `some a` with `a ≤ 0`. -/
def MartingaleStrategy.calculate_pnl (avg_entry_price : Option ℚ)
    (current_price : ℚ) : ℚ :=
  match avg_entry_price with
  | none => 0
  | some a => if a ≤ 0 then 0 else (current_price - a) / a

/-- Mutable state of `MartingaleStrategy` (src/core/strategy.py:33-37),
restricted to the fields the fill path touches.  `filled_orders` keeps the
raw order payloads exactly as `handle_filled_order` appends them. -/
structure OrderData where
  id : Option String
  price : ℚ
  executedQuantity : ℚ
deriving DecidableEq

structure StrategyState where
  total_bought : ℚ
  avg_price : ℚ
  active_order_ids : List (Option String)
  filled_orders : List OrderData
deriving DecidableEq

/-- `MartingaleStrategy.update_avg_price` (src/core/strategy.py:166-173).
Faithful to the source: in the `total_bought == 0` branch only `avg_price`
is assigned; `total_bought` is NOT increased there (lines 168-169). -/
def MartingaleStrategy.update_avg_price (st : StrategyState)
    (new_price new_quantity : ℚ) : StrategyState :=
  if st.total_bought = 0 then
    { st with avg_price := new_price }
  else
    let total_value := st.avg_price * st.total_bought + new_price * new_quantity
    let tb := st.total_bought + new_quantity
    { st with total_bought := tb,
              avg_price := if 0 < tb then total_value / tb else 0 }

/-- `MartingaleStrategy.handle_filled_order` (src/core/strategy.py:185-199).
No membership check against `filled_orders` is performed before mutating:
the update always runs and the payload is always appended. -/
def MartingaleStrategy.handle_filled_order (st : StrategyState)
    (od : OrderData) : StrategyState :=
  let st1 := MartingaleStrategy.update_avg_price st od.price od.executedQuantity
  { st1 with
      active_order_ids := st1.active_order_ids.filter (fun oid => oid ≠ od.id),
      filled_orders := st1.filled_orders ++ [od] }

/-- `MartingaleStrategy.generate_entry_orders` (src/core/strategy.py:39-69)
builds one order dict per layer; only the keys it writes are modelled. -/
structure PlannedOrder where
  price : ℚ
  quantity : ℚ
  type : String
  side : String
deriving DecidableEq

/-- Loop body of `generate_entry_orders` over the layer indices.  Python
raises `ZeroDivisionError` at `allocated_funds[i] / price` when a layer
price is zero; this surfaces as `Except.error`.  The precision manager
(src/utils/precision_manager.py) never raises — on a failed market-info
lookup it silently falls back to a default precision — so the two
formatters are total functions, injected as the constructor dependency
`precision_manager` is in the source. -/
def MartingaleStrategy.genLayers (s : StrategySettings) (fmtP fmtQ : ℚ → ℚ)
    (current_price : ℚ) (allocated_funds : List ℚ) :
    List ℕ → Except String (List PlannedOrder)
  | [] => Except.ok []
  | i :: rest =>
    let price := current_price * (1 - s.PRICE_STEP_DOWN * ((i : ℚ) + 1))
    if price = 0 then Except.error "ZeroDivisionError"
    else
      let quantity := allocated_funds.getD i 0 / price
      match MartingaleStrategy.genLayers s fmtP fmtQ current_price allocated_funds rest with
      | Except.ok tail =>
        Except.ok ({ price := fmtP price, quantity := fmtQ quantity,
                     type := "limit", side := "Bid" } :: tail)
      | Except.error e => Except.error e

/-- `MartingaleStrategy.generate_entry_orders` (src/core/strategy.py:39-69).
`current_price` is the value `get_current_price` produced (modelled as a
parameter); there is no validation of it anywhere in the function.
`allocate_funds` always returns exactly `MAX_LAYERS` amounts, so the
`getD` default in the loop is never taken on the source's index range. -/
def MartingaleStrategy.generate_entry_orders (s : StrategySettings)
    (fmtP fmtQ : ℚ → ℚ) (current_price : ℚ) : Except String (List PlannedOrder) :=
  let allocated_funds := MartingaleStrategy.allocate_funds s
  MartingaleStrategy.genLayers s fmtP fmtQ current_price allocated_funds
    (List.range s.MAX_LAYERS)

/-- An exchange order dict as consumed by the runner; the runner reads only
the `id` key (`order.get("id")`, which yields `None` when absent). -/
structure ExchangeOrder where
  id : Option String
deriving DecidableEq

/-- One `(price, quantity)` entry of the post-take-profit re-ladder plan
built in `MartingaleRunner.on_order_update` (src/main/martingale_runner.py:279-291). -/
structure PlanEntry where
  price : ℚ
  quantity : ℚ
deriving DecidableEq

/-- Outbound API actions the runner performs, recorded as a trace. -/
inductive ApiCall where
  | cancelOrder (order_id : String)
  | placeLimitOrder (side : String) (price : ℚ) (size : ℚ)
  | cancelAllOrders
  | placeOrders (plan : List PlanEntry)
  | closePosition (size : ℚ)
deriving DecidableEq

/-- Runner position/order state (src/main/martingale_runner.py:63-83). -/
structure RunnerState where
  holding_position : Bool
  entry_price : Option ℚ
  total_bought : ℚ
  tp_order_id : Option String
  active_orders : List ExchangeOrder
deriving DecidableEq

/-- A WebSocket `orderFill` push message, with exactly the keys
`on_order_update` reads: `e` (event type), `i` (order id), `L` (fill
price), `l` (fill quantity), `S` (side, `"Bid"` or `"Ask"`). -/
structure FillEvent where
  e : String
  i : String
  L : ℚ
  l : ℚ
  S : String
deriving DecidableEq

/-- Outcomes of the external calls a single `on_order_update` invocation
makes.  `executor.place_limit_order` and `executor.place_orders`
(src/core/order_executor.py) catch all exceptions internally and return
`None` / a list, so they are modelled as data, not as possible raises.
`place_tp_result = none` models a falsy (failed) take-profit submission. -/
structure Env where
  place_tp_result : Option ExchangeOrder
  place_orders_result : List ExchangeOrder
deriving DecidableEq

/-- Result of one `on_order_update` call: the new state, the trace of
outbound API calls, and the realized profit computed in the sell branch. -/
structure UpdateResult where
  state : RunnerState
  calls : List ApiCall
  realized_profit : Option ℚ
deriving DecidableEq

/-- Python truthiness of an optional string (`if self.tp_order_id:`):
`None` and the empty string are falsy. -/
def pyTruthyStr : Option String → Bool
  | none => false
  | some s => if s = "" then false else true

/-- Gap used for layer `i` of the post-take-profit re-ladder
(src/main/martingale_runner.py:281-285): `ENTRY_GAP_AFTER_TP` only for
layer 0, only when the attribute exists and is truthy (nonzero). -/
def MartingaleRunner.replant_gap (s : StrategySettings) (i : ℕ) : ℚ :=
  if i = 0 then
    match s.ENTRY_GAP_AFTER_TP with
    | some g => if g = 0 then s.PRICE_STEP_DOWN else g
    | none => s.PRICE_STEP_DOWN
  else s.PRICE_STEP_DOWN

/-- Price of layer `i` of the re-ladder exactly as line 286 computes it:
`step_price = current_price * current_price * (1 - gap * (i + 1))`
(note the source multiplies `current_price` by itself). -/
def MartingaleRunner.replant_step_price (s : StrategySettings)
    (current_price : ℚ) (i : ℕ) : ℚ :=
  current_price * current_price * (1 - MartingaleRunner.replant_gap s i * ((i : ℚ) + 1))

/-- The re-ladder order plan of src/main/martingale_runner.py:279-291:
`step_amount = FIRST_ORDER_AMOUNT * (2 ** i)` (a literal 2, not the
multiplier setting). -/
def MartingaleRunner.replant_plan (s : StrategySettings)
    (current_price : ℚ) : List PlanEntry :=
  (List.range s.MAX_LAYERS).map (fun i =>
    let step_price := MartingaleRunner.replant_step_price s current_price i
    let step_amount := s.FIRST_ORDER_AMOUNT * 2 ^ i
    { price := step_price, quantity := step_amount / step_price })

/-- `MartingaleRunner.on_order_update` (src/main/martingale_runner.py:178-298),
the push-channel fill handler.  Control flow: only `e == "orderFill"` events
are processed; the `"Bid"` branch performs the weighted-average position
update, removes the filled order from `active_orders`, cancels any previous
take-profit order and places a replacement; the `"Ask"` branch (guarded by
`holding_position` only — the source does NOT compare the order id with
`tp_order_id`) realizes profit, cancels all orders, resets the position and
immediately re-plants a ladder.  There is no duplicate-delivery check
anywhere: the handler never consults a set of already-processed order ids.
`client.cancel_order` / `client.cancel_all_orders` catch every exception
internally and return `None` on failure (src/api/client.py:381-438), so the
inner `try/except` blocks around them can only take the success path; their
(ignored) return values are therefore not parameters.  The stats-recording
calls touch no modelled state.  If a re-ladder layer price is zero, Python
raises `ZeroDivisionError` out of the plan-building loop into the outer
handler: the mutations already made stick and no orders are placed. -/
def MartingaleRunner.on_order_update (s : StrategySettings) (env : Env)
    (st : RunnerState) (data : FillEvent) : UpdateResult :=
  if data.e = "orderFill" then
    let order_id := data.i
    let price := data.L
    let quantity := data.l
    let side := data.S
    if side = "Bid" then
      let st1 := { st with holding_position := true }
      let st2 :=
        match st1.entry_price with
        | none =>
          { st1 with entry_price := some price, total_bought := quantity }
        | some ep =>
          let total_value := ep * st1.total_bought + price * quantity
          let tb := st1.total_bought + quantity
          { st1 with total_bought := tb,
                     entry_price := some (if 0 < tb then total_value / tb else 0) }
      let st3 := { st2 with
        active_orders := st2.active_orders.filter (fun o => o.id ≠ some order_id) }
      -- entry_price is always `some` here; `getD 0` only unwraps it
      let take_profit_price := st3.entry_price.getD 0 * (1 + s.TAKE_PROFIT_PCT)
      let cancelTrace :=
        match st3.tp_order_id with
        | some tid => if tid = "" then [] else [ApiCall.cancelOrder tid]
        | none => []
      let st4 :=
        if pyTruthyStr st3.tp_order_id then { st3 with tp_order_id := none } else st3
      let placeTrace := [ApiCall.placeLimitOrder "Ask" take_profit_price st4.total_bought]
      let st5 :=
        match env.place_tp_result with
        | some o => { st4 with tp_order_id := o.id }
        | none => st4
      { state := st5, calls := cancelTrace ++ placeTrace, realized_profit := none }
    else if side = "Ask" ∧ st.holding_position = true then
      match st.entry_price with
      | none =>
        -- Python: `price - None` raises TypeError before any mutation in
        -- this branch; the outer handler logs it and returns.
        { state := st, calls := [], realized_profit := none }
      | some ep =>
        let profit := (price - ep) * quantity
        let st1 := { st with active_orders := [] }
        let st2 := { st1 with holding_position := false, entry_price := none,
                              total_bought := 0, tp_order_id := none }
        let current_price := price
        let zeroStep := (List.range s.MAX_LAYERS).any
          (fun i => decide (MartingaleRunner.replant_step_price s current_price i = 0))
        if zeroStep then
          { state := st2, calls := [ApiCall.cancelAllOrders],
            realized_profit := some profit }
        else
          let plan := MartingaleRunner.replant_plan s current_price
          { state := { st2 with active_orders := env.place_orders_result },
            calls := [ApiCall.cancelAllOrders, ApiCall.placeOrders plan],
            realized_profit := some profit }
    else { state := st, calls := [], realized_profit := none }
  else { state := st, calls := [], realized_profit := none }

/-- `MartingaleRunner.reset` (src/main/martingale_runner.py:87-127): cancels
every active order that has an `id` (each cancel individually guarded, and
`client.cancel_order` never raises), then clears the order list and the
position fields.  `tp_order_id` is NOT cleared by `reset`.  Nothing in the
body can raise, so the `except` path returning `False` is dead: the result
flag is always `true`. -/
def MartingaleRunner.reset (st : RunnerState) : RunnerState × List ApiCall × Bool :=
  ({ st with active_orders := [], holding_position := false,
             entry_price := none, total_bought := 0 },
   st.active_orders.filterMap (fun o => o.id.map (fun oid => ApiCall.cancelOrder oid)),
   true)

/-- Outcomes of the two external calls `emergency_stop` makes.  Both are
only logged by the source — neither value influences control flow — and
neither call can raise (`client.cancel_all_orders` catches internally;
`executor.close_position` delegates to `place_market_order`, which catches
internally and returns `None` on failure, src/core/order_executor.py:58-85). -/
structure StopEnv where
  cancel_all_result : Option String
  close_result : Option String

/-- `MartingaleRunner.emergency_stop` (src/main/martingale_runner.py:154-176):
cancel all orders, market-close the held quantity when
`holding_position ∧ total_bought > 0`, then `reset`.  Since no call before
`reset` can raise, `reset` always runs. -/
def MartingaleRunner.emergency_stop (_env : StopEnv) (st : RunnerState) :
    RunnerState × List ApiCall × Bool :=
  let cancelTrace := [ApiCall.cancelAllOrders]
  let closeTrace :=
    if st.holding_position = true ∧ 0 < st.total_bought then
      [ApiCall.closePosition st.total_bought]
    else []
  match MartingaleRunner.reset st with
  | (st2, resetTrace, _ok) => (st2, cancelTrace ++ closeTrace ++ resetTrace, true)

/-- An order dict as the monitor stores it in the legacy list
representation and as the history endpoint returns it: id plus the
originally planned price and quantity. -/
structure MonitorOrder where
  id : String
  price : ℚ
  quantity : ℚ
deriving DecidableEq

/-- Outcome of one HTTP call: 200 with a body, 404, or anything else
(non-200 status or an exception, both of which the client turns into
`None`). -/
inductive HttpResp (α : Type) where
  | ok (body : α)
  | notFound
  | otherError
deriving DecidableEq

/-- `BackpackAPIClient.get_order_from_history` (src/api/client.py:147-166):
on a 200 response, scan the returned order list for a matching id;
otherwise (or on an exception) return `None`. -/
def BackpackAPIClient.get_order_from_history
    (resp : HttpResp (List MonitorOrder)) (order_id : String) : Option MonitorOrder :=
  match resp with
  | .ok orders => orders.find? (fun o => o.id == order_id)
  | .notFound => none
  | .otherError => none

/-- `BackpackAPIClient.get_order` (src/api/client.py:122-145): direct
order-status lookup; a 404 escalates to the order-history lookup; any
other failure yields `None`. -/
def BackpackAPIClient.get_order (direct : HttpResp MonitorOrder)
    (history : HttpResp (List MonitorOrder)) (order_id : String) : Option MonitorOrder :=
  match direct with
  | .ok o => some o
  | .notFound => BackpackAPIClient.get_order_from_history history order_id
  | .otherError => none

/-- `OrderMonitor.active_orders` is used with two incompatible shapes in
the source (`isinstance` branching in `check_for_filled_orders`,
src/core/order_monitor.py:73-101): a dict — which `track_order` populates
as `order_id ↦ symbol` (line 24: `self.active_orders[order_id] = self.symbol`),
so the stored VALUE is the symbol string, not the order — or a legacy list
of order dicts. -/
inductive ActiveRep where
  | dictRep (entries : List (String × String))
  | listRep (orders : List MonitorOrder)
deriving DecidableEq

/-- Python dict assignment on an association list: replace in place if the
key exists, else append. -/
def dictInsert {α : Type} (k : String) (v : α) : List (String × α) → List (String × α)
  | [] => [(k, v)]
  | (k2, v2) :: rest =>
    if k2 == k then (k, v) :: rest else (k2, v2) :: dictInsert k v rest

/-- `OrderMonitor` state (src/core/order_monitor.py:11-13): `filled_orders`
is a dict `order_id ↦ order`. -/
structure MonitorState where
  symbol : String
  open_orders : List (String × MonitorOrder)
  active_orders : ActiveRep
  filled_orders : List (String × MonitorOrder)
deriving DecidableEq

/-- `OrderMonitor.track_order` (src/core/order_monitor.py:18-26): stores the
order under its id in `open_orders` and — crucially — stores only the
SYMBOL string under its id in `active_orders`.  (If `active_orders` were a
list, the dict-style assignment would raise a TypeError after `open_orders`
was already updated; that path is never taken by the source, which
initializes `active_orders` as a dict.) -/
def OrderMonitor.track_order (m : MonitorState) (o : MonitorOrder) : MonitorState :=
  let m1 := { m with open_orders := dictInsert o.id o m.open_orders }
  match m1.active_orders with
  | .dictRep es => { m1 with active_orders := .dictRep (dictInsert o.id m.symbol es) }
  | .listRep _ => m1

/-- What the presumed-fill loop popped for one missing order: in the dict
representation the popped dict VALUE is the symbol string; in the list
representation it is the order dict itself. -/
inductive PoppedEntry where
  | symbolStr (sym : String)
  | orderDict (o : MonitorOrder)
deriving DecidableEq

/-- `OrderMonitor.check_for_filled_orders` (src/core/order_monitor.py:45-134).
The fill-history and positions preamble (lines 49-67) only logs its results
and mutates nothing, so it is not modelled.  `getOrder` is the outcome of
`client.get_order` per order id (`None` = not found on both the direct and
the history lookup, or any error; the client never raises).  Every order
whose lookup returns `None` is removed from `active_orders` in one pass.
The aggregation block (lines 103-132) only counts popped entries that are
dicts with numeric price/quantity — in the dict representation the popped
entries are symbol strings, so they are all skipped — and only when the
FIRST popped entry is a dict is a single merged fill (weighted-average
price, summed quantity) recorded in `filled_orders` and returned. -/
def OrderMonitor.check_for_filled_orders (getOrder : String → Option MonitorOrder)
    (m : MonitorState) : MonitorState × Option MonitorOrder :=
  let pn : List PoppedEntry × ActiveRep :=
    match m.active_orders with
    | .dictRep es =>
      ((es.filter (fun kv => (getOrder kv.1).isNone)).map
          (fun kv => PoppedEntry.symbolStr kv.2),
       ActiveRep.dictRep (es.filter (fun kv => (getOrder kv.1).isSome)))
    | .listRep l =>
      ((l.filter (fun o => (getOrder o.id).isNone)).map PoppedEntry.orderDict,
       ActiveRep.listRep (l.filter (fun o => (getOrder o.id).isSome)))
  let popped := pn.1
  let newActive := pn.2
  let total_value := (popped.map (fun p =>
      match p with
      | .orderDict o => o.price * o.quantity
      | .symbolStr _ => 0)).sum
  let total_quantity := (popped.map (fun p =>
      match p with
      | .orderDict o => o.quantity
      | .symbolStr _ => 0)).sum
  let avg_price := if 0 < total_quantity then total_value / total_quantity else 0
  match popped.head? with
  | some (.orderDict o) =>
    let merged := { o with price := avg_price, quantity := total_quantity }
    ({ m with active_orders := newActive,
              filled_orders := dictInsert o.id merged m.filled_orders },
     some merged)
  | _ => ({ m with active_orders := newActive }, none)

/-! Concrete sample inputs used by the evaluation theorems below. -/

/-- Settings: capital 100 USDT, 3 layers, multiplier 2, take-profit 1%,
price step 2%, no fixed first-layer amount, no post-TP gap override. -/
def cfg100_3_2 : StrategySettings :=
  { ENTRY_SIZE_USDT := 100, MAX_LAYERS := 3, MULTIPLIER := 2,
    TAKE_PROFIT_PCT := 1/100, PRICE_STEP_DOWN := 1/50,
    FIRST_ORDER_AMOUNT := 0, ENTRY_GAP_AFTER_TP := none }

/-- Same settings with a fixed first-layer amount of 40 (used by the
post-take-profit re-ladder, whose per-layer amount is
`FIRST_ORDER_AMOUNT * 2 ^ i`). -/
def cfg40first : StrategySettings := { cfg100_3_2 with FIRST_ORDER_AMOUNT := 40 }

/-- Degenerate settings: a single layer with a fixed first-layer amount of
50 out of capital 100. -/
def cfgFixed1 : StrategySettings :=
  { cfg100_3_2 with MAX_LAYERS := 1, FIRST_ORDER_AMOUNT := 50 }

/-- External-call outcomes in which the take-profit submission succeeds
with order id `"tp1"` and the re-ladder placement returns no orders. -/
def envSample : Env := { place_tp_result := some { id := some "tp1" }, place_orders_result := [] }

/-- Runner state before any fill. -/
def emptyRunnerState : RunnerState :=
  { holding_position := false, entry_price := none, total_bought := 0,
    tp_order_id := none, active_orders := [] }

/-- Runner state holding 5 units at average entry 100, with take-profit
order `"tp1"` outstanding and one remaining buy order `"b2"`. -/
def holdingState : RunnerState :=
  { holding_position := true, entry_price := some 100, total_bought := 5,
    tp_order_id := some "tp1", active_orders := [{ id := some "b2" }] }

/-- Push event: buy order `"o1"` filled, price 100, quantity 1. -/
def bidFill100 : FillEvent := { e := "orderFill", i := "o1", L := 100, l := 1, S := "Bid" }

/-- Push event: buy order `"o2"` filled, price 90, quantity 2. -/
def bidFill90 : FillEvent := { e := "orderFill", i := "o2", L := 90, l := 2, S := "Bid" }

/-- Push event: sell (take-profit) order `"tp1"` filled, price 102, quantity 5. -/
def askFill102 : FillEvent := { e := "orderFill", i := "tp1", L := 102, l := 5, S := "Ask" }

/-- Push event: sell (take-profit) order `"tp1"` filled, price 100, quantity 5. -/
def askFill100 : FillEvent := { e := "orderFill", i := "tp1", L := 100, l := 5, S := "Ask" }

/-- Fresh `MartingaleStrategy` state (constructor defaults,
src/core/strategy.py:33-37). -/
def strategyInit : StrategyState :=
  { total_bought := 0, avg_price := 0, active_order_ids := [], filled_orders := [] }

/-- Monitor state after tracking one planned buy order
`{id := "o1", price := 100, quantity := 1}` from a fresh monitor
(dict representation, as `track_order` produces). -/
def monitorTracked : MonitorState :=
  OrderMonitor.track_order
    { symbol := "SOL_USDC", open_orders := [], active_orders := .dictRep [],
      filled_orders := [] }
    { id := "o1", price := 100, quantity := 1 }

/-! Helper lemmas shared by the claim theorems. -/

/-- The geometric weight sum used by `allocate_funds` is nonnegative for a
positive multiplier. -/
theorem geomListSum_nonneg (m : ℚ) (hm : 0 < m) (n : ℕ) :
    0 ≤ ((List.range n).map (fun i => m ^ i)).sum := by
  apply List.sum_nonneg
  intro x hx
  simp only [List.mem_map] at hx
  obtain ⟨i, _, rfl⟩ := hx
  positivity

/-- The geometric weight sum used by `allocate_funds` is positive for a
positive multiplier and at least one layer. -/
theorem geomListSum_pos (m : ℚ) (hm : 0 < m) (n : ℕ) (hn : 1 ≤ n) :
    0 < ((List.range n).map (fun i => m ^ i)).sum := by
  obtain ⟨k, rfl⟩ : ∃ k, n = k + 1 := ⟨n - 1, by omega⟩
  rw [List.range_succ, List.map_append, List.sum_append]
  have h1 : (0 : ℚ) < m ^ k := by positivity
  have h2 := geomListSum_nonneg m hm k
  simp only [List.map_cons, List.map_nil, List.sum_cons, List.sum_nil]
  linarith

/-- Factoring the common `c / w` multiplier out of a mapped geometric sum. -/
theorem sum_map_mul_div (l : List ℕ) (c w m : ℚ) :
    (l.map (fun i => c * m ^ i / w)).sum = c / w * (l.map (fun i => m ^ i)).sum := by
  induction l with
  | nil => simp
  | cons a t ih =>
    simp only [List.map_cons, List.sum_cons, ih]
    ring

/-- Reindexing Python `range(1, N)` (`List.range' 1 (N-1)`) with exponent
`i - 1` to `List.range (N-1)` with exponent `j`. -/
theorem range1_pow_reindex (k : ℕ) (c w m : ℚ) :
    (List.range' 1 k).map (fun i => c * m ^ (i - 1) / w) =
      (List.range k).map (fun j => c * m ^ j / w) := by
  rw [List.range'_eq_map_range, List.map_map]
  congr 1
  funext j
  simp

/-- When every layer price is nonzero, the `generate_entry_orders` loop
succeeds and produces exactly the per-layer formula orders. -/
theorem genLayers_ok (s : StrategySettings) (fmtP fmtQ : ℚ → ℚ) (cp : ℚ)
    (alloc : List ℚ) (L : List ℕ)
    (hL : ∀ i ∈ L, cp * (1 - s.PRICE_STEP_DOWN * ((i : ℚ) + 1)) ≠ 0) :
    MartingaleStrategy.genLayers s fmtP fmtQ cp alloc L =
      Except.ok (L.map (fun (i : ℕ) =>
        ({ price := fmtP (cp * (1 - s.PRICE_STEP_DOWN * ((i : ℚ) + 1))),
           quantity := fmtQ (alloc.getD i 0 / (cp * (1 - s.PRICE_STEP_DOWN * ((i : ℚ) + 1)))),
           type := "limit", side := "Bid" } : PlannedOrder))) := by
  induction L with
  | nil => rfl
  | cons a t ih =>
    have ha := hL a (List.mem_cons_self a t)
    have ht := fun i hi => hL i (List.mem_cons_of_mem a hi)
    simp only [MartingaleStrategy.genLayers, if_neg ha, ih ht, List.map_cons]

/-! Claim theorems. -/

/-- Claim C1: the fill-handling entry point is claimed to be idempotent
against duplicate delivery — re-processing a fill whose order id is already
in `filled_orders` should be a no-op.  The source has no such check:
delivering the same buy fill (id `"o1"`, price 100, quantity 1) twice to
`on_order_update` applies the weighted-average update twice, driving
`total_bought` from 1 to 2 instead of leaving it at 1. -/
theorem C1_on_order_update_double_counts_duplicate_fill :
    (MartingaleRunner.on_order_update cfg100_3_2 envSample emptyRunnerState
        bidFill100).state.total_bought = 1 ∧
    (MartingaleRunner.on_order_update cfg100_3_2 envSample
        (MartingaleRunner.on_order_update cfg100_3_2 envSample emptyRunnerState
            bidFill100).state
        bidFill100).state.total_bought = 2 := by
  norm_num [MartingaleRunner.on_order_update, cfg100_3_2, envSample,
    emptyRunnerState, bidFill100, pyTruthyStr,
    show ("tp1" : String) ≠ "" from by decide]

/-- Claim C2: both fill paths are claimed to maintain the quantity-weighted
average.  `MartingaleStrategy.update_avg_price` does not: its first-fill
branch never adds the quantity, so after fills (100, 1) then (90, 2) it
holds `total_bought = 0` and `avg_price = 90` (the last price) instead of
the weighted mean 280/3 with total quantity 3.  The runner's own
`on_order_update` buy branch, fed the same two fills, produces the correct
weighted state. -/
theorem C2_update_avg_price_loses_first_fill_quantity :
    (MartingaleStrategy.update_avg_price
        (MartingaleStrategy.update_avg_price strategyInit 100 1) 90 2).total_bought = 0 ∧
    (MartingaleStrategy.update_avg_price
        (MartingaleStrategy.update_avg_price strategyInit 100 1) 90 2).avg_price = 90 ∧
    ((100 * 1 + 90 * 2) / (1 + 2) : ℚ) = 280 / 3 ∧
    (90 : ℚ) ≠ 280 / 3 ∧
    (MartingaleRunner.on_order_update cfg100_3_2 envSample
        (MartingaleRunner.on_order_update cfg100_3_2 envSample emptyRunnerState
            bidFill100).state
        bidFill90).state.total_bought = 3 ∧
    (MartingaleRunner.on_order_update cfg100_3_2 envSample
        (MartingaleRunner.on_order_update cfg100_3_2 envSample emptyRunnerState
            bidFill100).state
        bidFill90).state.entry_price = some (280 / 3) := by
  norm_num [MartingaleStrategy.update_avg_price, strategyInit,
    MartingaleRunner.on_order_update, cfg100_3_2, envSample, emptyRunnerState,
    bidFill100, bidFill90, pyTruthyStr,
    show ("tp1" : String) ≠ "" from by decide]

/-- Claim C3: processing a sell fill that matches the outstanding
take-profit order while holding a position realizes profit
`(fill price − average entry) * fill quantity`, requests cancellation of
all remaining orders, and leaves the position empty with no take-profit
order id — for every settings value, every external-call outcome and every
such state/event. -/
theorem C3_take_profit_fill_clears_position
    (s : StrategySettings) (env : Env) (st : RunnerState) (ev : FillEvent)
    (a : ℚ) (tid : String)
    (he : ev.e = "orderFill") (hS : ev.S = "Ask")
    (hh : st.holding_position = true) (hep : st.entry_price = some a)
    (_htp : st.tp_order_id = some tid) (_hid : ev.i = tid) :
    (MartingaleRunner.on_order_update s env st ev).realized_profit
        = some ((ev.L - a) * ev.l) ∧
    ApiCall.cancelAllOrders ∈ (MartingaleRunner.on_order_update s env st ev).calls ∧
    (MartingaleRunner.on_order_update s env st ev).state.holding_position = false ∧
    (MartingaleRunner.on_order_update s env st ev).state.entry_price = none ∧
    (MartingaleRunner.on_order_update s env st ev).state.total_bought = 0 ∧
    (MartingaleRunner.on_order_update s env st ev).state.tp_order_id = none := by
  unfold MartingaleRunner.on_order_update
  rw [he, hS, hh, hep]
  simp only [if_pos rfl, if_neg (show ("Ask" : String) ≠ "Bid" from by decide)]
  by_cases hz : (List.range s.MAX_LAYERS).any
      (fun i => decide (MartingaleRunner.replant_step_price s ev.L i = 0)) = true
  · simp [hz]
  · simp [hz]

/-- Witness for C3: take-profit order `"tp1"` fills at price 102 for
quantity 5 while holding 5 units at average entry 100. -/
theorem C3_take_profit_fill_clears_position_witness :
    (MartingaleRunner.on_order_update cfg100_3_2 envSample holdingState
        askFill102).realized_profit = some ((askFill102.L - 100) * askFill102.l) ∧
    ApiCall.cancelAllOrders ∈
      (MartingaleRunner.on_order_update cfg100_3_2 envSample holdingState askFill102).calls ∧
    (MartingaleRunner.on_order_update cfg100_3_2 envSample holdingState
        askFill102).state.holding_position = false ∧
    (MartingaleRunner.on_order_update cfg100_3_2 envSample holdingState
        askFill102).state.entry_price = none ∧
    (MartingaleRunner.on_order_update cfg100_3_2 envSample holdingState
        askFill102).state.total_bought = 0 ∧
    (MartingaleRunner.on_order_update cfg100_3_2 envSample holdingState
        askFill102).state.tp_order_id = none :=
  C3_take_profit_fill_clears_position cfg100_3_2 envSample holdingState askFill102
    100 "tp1" rfl rfl rfl rfl rfl rfl

/-- Claim C4: the reconcile pass is claimed to record a not-found tracked
buy order in `filled_orders` as a presumed fill with its planned
price/quantity and to return it as a fill event.  In the source, tracked
orders are stored as `order_id ↦ symbol`, so the value popped for a missing
order is the symbol string; the aggregation block skips non-dict entries
and the first-entry dict guard fails, so nothing is recorded in
`filled_orders` and `None` is returned — the order is only silently dropped
from `active_orders`.  (The first conjunct checks the claim's premise
translation: a 404 on the direct lookup escalates to the history lookup,
and a miss there yields `None`.) -/
theorem C4_presumed_fill_not_recorded_and_not_returned :
    BackpackAPIClient.get_order HttpResp.notFound (HttpResp.ok []) "o1" = none ∧
    (OrderMonitor.check_for_filled_orders (fun _ => none) monitorTracked).2 = none ∧
    (OrderMonitor.check_for_filled_orders (fun _ => none) monitorTracked).1.filled_orders = [] ∧
    (OrderMonitor.check_for_filled_orders (fun _ => none) monitorTracked).1.active_orders
      = ActiveRep.dictRep [] := by
  norm_num [BackpackAPIClient.get_order, BackpackAPIClient.get_order_from_history,
    OrderMonitor.check_for_filled_orders, OrderMonitor.track_order,
    monitorTracked, dictInsert]

/-- Claim C5: `emergency_stop` requests cancellation of all orders,
attempts a market close of the full held quantity, and always resets the
local state to not-holding / no entry price / zero quantity, regardless of
the outcomes of the cancel and close calls. -/
theorem C5_emergency_stop_always_resets_state
    (env : StopEnv) (st : RunnerState) (q : ℚ)
    (hh : st.holding_position = true) (hq : st.total_bought = q) (h0 : 0 < q) :
    (MartingaleRunner.emergency_stop env st).1.holding_position = false ∧
    (MartingaleRunner.emergency_stop env st).1.entry_price = none ∧
    (MartingaleRunner.emergency_stop env st).1.total_bought = 0 ∧
    ApiCall.cancelAllOrders ∈ (MartingaleRunner.emergency_stop env st).2.1 ∧
    ApiCall.closePosition q ∈ (MartingaleRunner.emergency_stop env st).2.1 := by
  subst hq
  simp [MartingaleRunner.emergency_stop, MartingaleRunner.reset, hh, h0]

/-- Witness for C5: emergency stop while holding 5 units at average entry
100, with both external calls reporting failure (`none`). -/
theorem C5_emergency_stop_always_resets_state_witness :
    (MartingaleRunner.emergency_stop ⟨none, none⟩ holdingState).1.holding_position = false ∧
    (MartingaleRunner.emergency_stop ⟨none, none⟩ holdingState).1.entry_price = none ∧
    (MartingaleRunner.emergency_stop ⟨none, none⟩ holdingState).1.total_bought = 0 ∧
    ApiCall.cancelAllOrders ∈ (MartingaleRunner.emergency_stop ⟨none, none⟩ holdingState).2.1 ∧
    ApiCall.closePosition 5 ∈ (MartingaleRunner.emergency_stop ⟨none, none⟩ holdingState).2.1 :=
  C5_emergency_stop_always_resets_state ⟨none, none⟩ holdingState 5 rfl rfl (by norm_num)

/-- Claim C6 counterexample: with `total_capital = 100`, `max_layers = 1`,
`multiplier = 2` and `first_layer_fixed_amount = 50`, `allocate_funds`
returns `[50]`, whose sum differs from the total capital by 50 — far above
the claimed 1e-6 tolerance. -/
theorem C6_allocate_funds_sum_counterexample :
    MartingaleStrategy.allocate_funds cfgFixed1 = [50] ∧
    |(MartingaleStrategy.allocate_funds cfgFixed1).sum - cfgFixed1.ENTRY_SIZE_USDT|
      > 1 / 1000000 := by
  norm_num [MartingaleStrategy.allocate_funds, cfgFixed1, cfg100_3_2]

/-- Claim C6 (amended): for `total_capital > 0`, `max_layers ≥ 1` and
`multiplier > 0`, the returned amounts sum exactly to `total_capital` and
are all strictly positive — provided the fixed first-layer amount is unset
(`≤ 0`), or there are at least two layers and the fixed amount is below the
total capital. -/
theorem C6_allocate_funds_sum_amended (s : StrategySettings)
    (htotal : 0 < s.ENTRY_SIZE_USDT) (hN : 1 ≤ s.MAX_LAYERS) (hM : 0 < s.MULTIPLIER)
    (hF : s.FIRST_ORDER_AMOUNT ≤ 0 ∨
          (2 ≤ s.MAX_LAYERS ∧ s.FIRST_ORDER_AMOUNT < s.ENTRY_SIZE_USDT)) :
    (MartingaleStrategy.allocate_funds s).sum = s.ENTRY_SIZE_USDT ∧
    ∀ a ∈ MartingaleStrategy.allocate_funds s, 0 < a := by
  by_cases hpos : 0 < s.FIRST_ORDER_AMOUNT
  · have hcase : 2 ≤ s.MAX_LAYERS ∧ s.FIRST_ORDER_AMOUNT < s.ENTRY_SIZE_USDT := by
      rcases hF with h | h
      · exact absurd hpos (not_lt.mpr h)
      · exact h
    obtain ⟨hN2, hFlt⟩ := hcase
    have hrl : 0 < s.MAX_LAYERS - 1 := by omega
    have hWpos : 0 < ((List.range (s.MAX_LAYERS - 1)).map (fun i => s.MULTIPLIER ^ i)).sum :=
      geomListSum_pos s.MULTIPLIER hM (s.MAX_LAYERS - 1) (by omega)
    have hform : MartingaleStrategy.allocate_funds s =
        s.FIRST_ORDER_AMOUNT ::
          (List.range (s.MAX_LAYERS - 1)).map
            (fun j => (s.ENTRY_SIZE_USDT - s.FIRST_ORDER_AMOUNT) * s.MULTIPLIER ^ j /
              ((List.range (s.MAX_LAYERS - 1)).map (fun i => s.MULTIPLIER ^ i)).sum) := by
      unfold MartingaleStrategy.allocate_funds
      rw [if_pos hpos, if_pos hrl]
      simp only [range1_pow_reindex]
    constructor
    · rw [hform, List.sum_cons, sum_map_mul_div,
        div_mul_cancel₀ _ (ne_of_gt hWpos)]
      ring
    · intro a ha
      rw [hform, List.mem_cons] at ha
      rcases ha with rfl | ha
      · exact hpos
      · simp only [List.mem_map] at ha
        obtain ⟨j, _, rfl⟩ := ha
        have hR : 0 < s.ENTRY_SIZE_USDT - s.FIRST_ORDER_AMOUNT := by linarith
        exact div_pos (mul_pos hR (pow_pos hM j)) hWpos
  · have hWpos : 0 < ((List.range s.MAX_LAYERS).map (fun i => s.MULTIPLIER ^ i)).sum :=
      geomListSum_pos s.MULTIPLIER hM s.MAX_LAYERS hN
    have hform : MartingaleStrategy.allocate_funds s =
        (List.range s.MAX_LAYERS).map
          (fun i => s.ENTRY_SIZE_USDT * s.MULTIPLIER ^ i /
            ((List.range s.MAX_LAYERS).map (fun i => s.MULTIPLIER ^ i)).sum) := by
      unfold MartingaleStrategy.allocate_funds
      rw [if_neg hpos]
    constructor
    · rw [hform, sum_map_mul_div, div_mul_cancel₀ _ (ne_of_gt hWpos)]
    · intro a ha
      rw [hform] at ha
      simp only [List.mem_map] at ha
      obtain ⟨j, _, rfl⟩ := ha
      exact div_pos (mul_pos htotal (pow_pos hM j)) hWpos

/-- Witness for the amended C6: capital 100, 3 layers, multiplier 2, no
fixed first-layer amount. -/
theorem C6_allocate_funds_sum_amended_witness :
    (MartingaleStrategy.allocate_funds cfg100_3_2).sum = cfg100_3_2.ENTRY_SIZE_USDT ∧
    ∀ a ∈ MartingaleStrategy.allocate_funds cfg100_3_2, 0 < a :=
  C6_allocate_funds_sum_amended cfg100_3_2 (by norm_num [cfg100_3_2])
    (by norm_num [cfg100_3_2]) (by norm_num [cfg100_3_2])
    (Or.inl (by norm_num [cfg100_3_2]))

/-- Claim C7 counterexample: with capital 100, 3 layers, multiplier 2 and
no fixed first amount, the claim says layer 0 receives `100 * 4/7`
(≈ 57.14); the code gives layer 0 the SMALLEST weight `multiplier ^ 0`, so
layer 0 receives `100 / 7` (≈ 14.29). -/
theorem C7_layer_zero_gets_smallest_share :
    (MartingaleStrategy.allocate_funds cfg100_3_2).head? = some (100 / 7) ∧
    (100 / 7 : ℚ) ≠ 100 * 4 / 7 := by
  norm_num [MartingaleStrategy.allocate_funds, cfg100_3_2, List.range_succ]

/-- Claim C7 (amended): with capital 100, 3 layers, multiplier 2 and no
fixed first amount, `allocate_funds` returns the ASCENDING sequence
`[100*1/7, 100*2/7, 100*4/7]` ≈ `[14.29, 28.57, 57.14]` — layer `i`
receives `100 * 2^i / 7`. -/
theorem C7_allocation_ascending_amended :
    MartingaleStrategy.allocate_funds cfg100_3_2
      = [100 * 1 / 7, 100 * 2 / 7, 100 * 4 / 7] := by
  norm_num [MartingaleStrategy.allocate_funds, cfg100_3_2, List.range_succ]

/-- Claim C8: the post-take-profit re-ladder is claimed to price layer 0 at
`p * (1 − gap)`.  Line 286 of the runner computes
`current_price * current_price * (1 - gap * (i + 1))` — the take-profit
fill price multiplied by itself.  For a fill at `p = 100` with
`price_step_down = 1/50` the first re-ladder price is `9800`, not
`100 * (1 − 1/50) = 98`; the plan placed by `on_order_update` after the
take-profit fill is exactly this squared-price ladder. -/
theorem C8_replant_layer_price_is_squared :
    (MartingaleRunner.replant_plan cfg40first 100).map PlanEntry.price
      = [9800, 9600, 9400] ∧
    (MartingaleRunner.on_order_update cfg40first envSample holdingState askFill100).calls
      = [ApiCall.cancelAllOrders,
         ApiCall.placeOrders (MartingaleRunner.replant_plan cfg40first 100)] ∧
    (9800 : ℚ) ≠ 100 * (1 - 1 / 50) := by
  norm_num [MartingaleRunner.replant_plan, MartingaleRunner.replant_step_price,
    MartingaleRunner.replant_gap, MartingaleRunner.on_order_update,
    cfg40first, cfg100_3_2, envSample, holdingState, askFill100, List.range_succ,
    show ("Ask" : String) ≠ "Bid" from by decide]

/-- Claim C9 counterexample: `generate_entry_orders` is claimed to return
an empty sequence when `current_price ≤ 0`.  At `current_price = -1` it
returns a full 3-layer (non-empty) order list with negative prices, and at
`current_price = 0` it raises `ZeroDivisionError` instead of returning
empty. -/
theorem C9_generate_orders_not_empty_on_invalid_price :
    MartingaleStrategy.generate_entry_orders cfg100_3_2 id id (-1) ≠ Except.ok [] ∧
    (MartingaleStrategy.generate_entry_orders cfg100_3_2 id id (-1)).toOption.map
      List.length = some 3 ∧
    MartingaleStrategy.generate_entry_orders cfg100_3_2 id id 0
      = Except.error "ZeroDivisionError" := by
  refine ⟨?_, ?_, ?_⟩ <;>
    norm_num [MartingaleStrategy.generate_entry_orders, MartingaleStrategy.genLayers,
      MartingaleStrategy.allocate_funds, cfg100_3_2,
      show List.range 3 = [0, 1, 2] from rfl, Except.toOption]
  exact List.cons_ne_nil _ _

/-- Claim C9 (amended): `generate_entry_orders` performs no validation of
`current_price` and no special handling of precision-lookup failure (the
precision manager silently falls back to defaults): whenever every layer
price `current_price * (1 − price_step_down * (i+1))` is nonzero, it
returns exactly one Buy (`"Bid"`) limit order per layer `i < max_layers`,
with `price_i = current_price * (1 − price_step_down * (i+1))` and
`quantity_i = allocated_amount_i / price_i`, both run through the
precision formatters. -/
theorem C9_generate_entry_orders_amended (s : StrategySettings)
    (fmtP fmtQ : ℚ → ℚ) (cp : ℚ)
    (h : ∀ i, i < s.MAX_LAYERS → cp * (1 - s.PRICE_STEP_DOWN * ((i : ℚ) + 1)) ≠ 0) :
    MartingaleStrategy.generate_entry_orders s fmtP fmtQ cp =
      Except.ok ((List.range s.MAX_LAYERS).map (fun (i : ℕ) =>
        ({ price := fmtP (cp * (1 - s.PRICE_STEP_DOWN * ((i : ℚ) + 1))),
           quantity := fmtQ ((MartingaleStrategy.allocate_funds s).getD i 0 /
             (cp * (1 - s.PRICE_STEP_DOWN * ((i : ℚ) + 1)))),
           type := "limit", side := "Bid" } : PlannedOrder))) := by
  unfold MartingaleStrategy.generate_entry_orders
  exact genLayers_ok s fmtP fmtQ cp _ _ (fun i hi => h i (List.mem_range.mp hi))

/-- Witness for the amended C9: a valid current price of 50 with the
3-layer sample settings and identity formatters. -/
theorem C9_generate_entry_orders_amended_witness :
    MartingaleStrategy.generate_entry_orders cfg100_3_2 id id 50 =
      Except.ok ((List.range cfg100_3_2.MAX_LAYERS).map (fun (i : ℕ) =>
        ({ price := id (50 * (1 - cfg100_3_2.PRICE_STEP_DOWN * ((i : ℚ) + 1))),
           quantity := id ((MartingaleStrategy.allocate_funds cfg100_3_2).getD i 0 /
             (50 * (1 - cfg100_3_2.PRICE_STEP_DOWN * ((i : ℚ) + 1)))),
           type := "limit", side := "Bid" } : PlannedOrder))) := by
  refine C9_generate_entry_orders_amended cfg100_3_2 id id 50 ?_
  intro i hi
  have h3 : i < 3 := hi
  interval_cases i <;> norm_num [cfg100_3_2]

/-- Claim C10: `calculate_pnl` is total and never divides by zero: it
returns 0 when the average entry price is `None`, zero or negative, and
`(current_price − avg) / avg` when the average is positive. -/
theorem C10_calculate_pnl_total_and_guarded (current_price : ℚ) :
    MartingaleStrategy.calculate_pnl none current_price = 0 ∧
    (∀ a : ℚ, a ≤ 0 → MartingaleStrategy.calculate_pnl (some a) current_price = 0) ∧
    (∀ a : ℚ, 0 < a →
      MartingaleStrategy.calculate_pnl (some a) current_price
        = (current_price - a) / a) := by
  refine ⟨rfl, ?_, ?_⟩
  · intro a ha
    simp [MartingaleStrategy.calculate_pnl, ha]
  · intro a ha
    simp [MartingaleStrategy.calculate_pnl, not_le.mpr ha]

/-- Witness for C10: entry 100, current price 110. -/
theorem C10_calculate_pnl_total_and_guarded_witness :
    MartingaleStrategy.calculate_pnl (some 100) 110 = (110 - 100) / 100 :=
  (C10_calculate_pnl_total_and_guarded 110).2.2 100 (by norm_num)
